import Mathlib

/-!
Verification development for the shared-drive-to-bq-connector repository.

The Python sources are shallowly embedded as executable Lean definitions:
pure string/list manipulation is translated directly, stateful methods of
`DriveConnector` become explicit state passing over a `RunState`, remote
API responses (Drive listings, BigQuery query results, load-job results)
are inputs to the model, and exceptions are modelled with `Except`.
-/

/-! ## Column-name normalization (DriveConnector.clean_column_str / clean_column_names) -/

/-- Characters BigQuery does not allow in column names; the source module-level
list `chars_to_replace`. -/
def chars_to_replace : List Char := [' ', '%', '-', '(', ')', '[', ']', '/']

/-- Replace every occurrence of the three-character token left-bracket plus
right-bracket by the word plus, scanning left to right non-overlappingly,
exactly as Python str.replace does. -/
def replace_plus_token : List Char → List Char
  | [] => []
  | [c] => [c]
  | [c, d] => [c, d]
  | c :: d :: e :: rest =>
    if c = '[' ∧ d = '+' ∧ e = ']' then 'p' :: 'l' :: 'u' :: 's' :: replace_plus_token rest
    else c :: replace_plus_token (d :: e :: rest)

/-- Replace every occurrence of the bracketed minus token by the word minus,
as Python str.replace does. -/
def replace_minus_token : List Char → List Char
  | [] => []
  | [c] => [c]
  | [c, d] => [c, d]
  | c :: d :: e :: rest =>
    if c = '[' ∧ d = '-' ∧ e = ']' then 'm' :: 'i' :: 'n' :: 'u' :: 's' :: replace_minus_token rest
    else c :: replace_minus_token (d :: e :: rest)

/-- Python str.replace with a single-character pattern. -/
def replace_char (old new : Char) (s : List Char) : List Char :=
  s.map fun c => if c = old then new else c

/-- The source loop `for char in chars_to_replace: column = column.replace(char, underscore)`. -/
def replace_banned_chars (s : List Char) : List Char :=
  chars_to_replace.foldl (fun acc ch => replace_char ch '_' acc) s

/-- Transliteration table modelling the unidecode library on the characters
relevant to this repository (the sources read CP1250-encoded Polish CSV
headers): Latin letters with diacritics map to their base letters, and the
CP1250 typographic dashes map to their documented unidecode transliterations
(en dash U+2013 to a single ASCII hyphen, em dash U+2014 to two hyphens). -/
def unidecode_table : List (Char × List Char) :=
  [('ą', ['a']), ('ć', ['c']), ('ę', ['e']), ('ł', ['l']), ('ń', ['n']), ('ó', ['o']),
   ('ś', ['s']), ('ź', ['z']), ('ż', ['z']),
   ('Ą', ['A']), ('Ć', ['C']), ('Ę', ['E']), ('Ł', ['L']), ('Ń', ['N']), ('Ó', ['O']),
   ('Ś', ['S']), ('Ź', ['Z']), ('Ż', ['Z']),
   ('ä', ['a']), ('ö', ['o']), ('ü', ['u']), ('é', ['e']), ('č', ['c']), ('š', ['s']),
   ('ž', ['z']), ('–', ['-']), ('—', ['-', '-'])]

/-- Model of unidecode.unidecode on one character: ASCII characters map to
themselves; characters in the table map to their transliteration; characters
outside the modelled set map to the empty string (unidecode's behavior for
unmapped characters). -/
def unidecode_char (c : Char) : List Char :=
  if c.toNat < 128 then [c]
  else (unidecode_table.lookup c).getD []

/-- Model of unidecode.unidecode on a whole string. -/
def unidecode_str : List Char → List Char
  | [] => []
  | c :: rest => unidecode_char c ++ unidecode_str rest

/-- DriveConnector.clean_column_str: replace the bracketed plus token, then the
bracketed minus token, then every banned character by an underscore, then
transliterate with unidecode. -/
def clean_column_str (column : String) : String :=
  ⟨unidecode_str (replace_banned_chars (replace_minus_token (replace_plus_token column.data)))⟩

/-- DriveConnector.clean_column_names: the same replacement passes applied
columnwise over the whole sequence (pandas vectorized str.replace calls,
followed by a list comprehension applying unidecode to each name). -/
def clean_column_names (columns : List String) : List String :=
  let columns := columns.map fun c => (⟨replace_plus_token c.data⟩ : String)
  let columns := columns.map fun c => (⟨replace_minus_token c.data⟩ : String)
  let columns := chars_to_replace.foldl
    (fun cols ch => cols.map fun c => (⟨replace_char ch '_' c.data⟩ : String)) columns
  columns.map fun c => (⟨unidecode_str c.data⟩ : String)

example : clean_column_str "Zużycie [kWh]" = "Zuzycie__kWh_" := by decide

example : clean_column_str "[+] Moc 15%" = "plus_Moc_15_" := by decide

/-! ## Lemmas about the normalization passes -/

/-- A character of the output of the plus-token pass is a character of the
input or one of the letters of the word plus. -/
theorem mem_replace_plus_token (s : List Char) :
    ∀ c ∈ replace_plus_token s, c ∈ s ∨ c ∈ ['p', 'l', 'u', 's'] := by
  induction s using replace_plus_token.induct with
  | case1 => simp [replace_plus_token]
  | case2 c => simp [replace_plus_token]
  | case3 c d => simp [replace_plus_token]
  | case4 c d e rest h ih =>
    intro x hx
    rw [replace_plus_token, if_pos h] at hx
    simp only [List.mem_cons] at hx
    rcases hx with rfl | rfl | rfl | rfl | hx
    · simp
    · simp
    · simp
    · simp
    · rcases ih x hx with h' | h'
      · exact Or.inl (by simp [h'])
      · exact Or.inr h'
  | case5 c d e rest h ih =>
    intro x hx
    rw [replace_plus_token, if_neg h] at hx
    simp only [List.mem_cons] at hx
    rcases hx with rfl | hx
    · simp
    · rcases ih x hx with h' | h'
      · simp only [List.mem_cons] at h' ⊢
        tauto
      · exact Or.inr h'

/-- A character of the output of the minus-token pass is a character of the
input or one of the letters of the word minus. -/
theorem mem_replace_minus_token (s : List Char) :
    ∀ c ∈ replace_minus_token s, c ∈ s ∨ c ∈ ['m', 'i', 'n', 'u', 's'] := by
  induction s using replace_minus_token.induct with
  | case1 => simp [replace_minus_token]
  | case2 c => simp [replace_minus_token]
  | case3 c d => simp [replace_minus_token]
  | case4 c d e rest h ih =>
    intro x hx
    rw [replace_minus_token, if_pos h] at hx
    simp only [List.mem_cons] at hx
    rcases hx with rfl | rfl | rfl | rfl | rfl | hx
    · simp
    · simp
    · simp
    · simp
    · simp
    · rcases ih x hx with h' | h'
      · exact Or.inl (by simp [h'])
      · exact Or.inr h'
  | case5 c d e rest h ih =>
    intro x hx
    rw [replace_minus_token, if_neg h] at hx
    simp only [List.mem_cons] at hx
    rcases hx with rfl | hx
    · simp
    · rcases ih x hx with h' | h'
      · simp only [List.mem_cons] at h' ⊢
        tauto
      · exact Or.inr h'

/-- A string without an opening bracket is a fixed point of the plus-token pass. -/
theorem replace_plus_token_fix (s : List Char) (h : '[' ∉ s) :
    replace_plus_token s = s := by
  induction s using replace_plus_token.induct with
  | case1 => rfl
  | case2 c => rfl
  | case3 c d => rfl
  | case4 c d e rest hc ih =>
    exact absurd (by simp [hc.1]) h
  | case5 c d e rest hc ih =>
    rw [replace_plus_token, if_neg hc, ih]
    intro hmem
    exact h (by simp [hmem])

/-- A string without an opening bracket is a fixed point of the minus-token pass. -/
theorem replace_minus_token_fix (s : List Char) (h : '[' ∉ s) :
    replace_minus_token s = s := by
  induction s using replace_minus_token.induct with
  | case1 => rfl
  | case2 c => rfl
  | case3 c d => rfl
  | case4 c d e rest hc ih =>
    exact absurd (by simp [hc.1]) h
  | case5 c d e rest hc ih =>
    rw [replace_minus_token, if_neg hc, ih]
    intro hmem
    exact h (by simp [hmem])

/-- The action of the banned-character pass on a single character. -/
def canon_char (c : Char) : Char :=
  if chars_to_replace.contains c then '_' else c

/-- The sequential banned-character replacements amount to one characterwise map. -/
theorem replace_banned_chars_eq_map (s : List Char) :
    replace_banned_chars s = s.map canon_char := by
  unfold replace_banned_chars chars_to_replace
  simp only [List.foldl, replace_char, List.map_map]
  apply List.map_congr_left
  intro c _
  by_cases h1 : c = ' '
  · subst h1; decide
  by_cases h2 : c = '%'
  · subst h2; decide
  by_cases h3 : c = '-'
  · subst h3; decide
  by_cases h4 : c = '('
  · subst h4; decide
  by_cases h5 : c = ')'
  · subst h5; decide
  by_cases h6 : c = '['
  · subst h6; decide
  by_cases h7 : c = ']'
  · subst h7; decide
  by_cases h8 : c = '/'
  · subst h8; decide
  simp [Function.comp, canon_char, chars_to_replace, h1, h2, h3, h4, h5, h6, h7, h8]

/-- A string free of banned characters is a fixed point of the banned-character pass. -/
theorem replace_banned_chars_fix (s : List Char)
    (h : ∀ c ∈ s, chars_to_replace.contains c = false) :
    replace_banned_chars s = s := by
  rw [replace_banned_chars_eq_map]
  conv_rhs => rw [← List.map_id s]
  apply List.map_congr_left
  intro c hc
  have hcon := h c hc
  simp only [canon_char, hcon, Bool.false_eq_true, if_false, id]

/-- An all-ASCII string is a fixed point of the transliteration pass. -/
theorem unidecode_str_fix (s : List Char) (h : ∀ c ∈ s, c.toNat < 128) :
    unidecode_str s = s := by
  induction s with
  | nil => rfl
  | cons c rest ih =>
    rw [unidecode_str, unidecode_char, if_pos (h c (by simp)), ih (fun x hx => h x (by simp [hx]))]
    rfl

/-- Every output character of the transliteration pass comes from the
transliteration of some input character. -/
theorem mem_unidecode_str (s : List Char) :
    ∀ d ∈ unidecode_str s, ∃ c ∈ s, d ∈ unidecode_char c := by
  induction s with
  | nil => simp [unidecode_str]
  | cons c rest ih =>
    intro d hd
    rw [unidecode_str, List.mem_append] at hd
    rcases hd with hd | hd
    · exact ⟨c, by simp, hd⟩
    · obtain ⟨c', hc', hd'⟩ := ih d hd
      exact ⟨c', by simp [hc'], hd'⟩

/-- A character is safe for idempotence when it either gets replaced by the
banned-character pass, or its transliteration consists only of ASCII
characters that are not themselves banned. -/
def safe_char (c : Char) : Bool :=
  chars_to_replace.contains c ||
    (unidecode_char c).all fun d => decide (d.toNat < 128) && !chars_to_replace.contains d

/-- Characterwise transliteration of an ASCII character is the identity. -/
theorem unidecode_char_ascii (c : Char) (h : c.toNat < 128) : unidecode_char c = [c] :=
  if_pos h

/-- Every character of a fully normalized safe string is ASCII and not banned. -/
theorem clean_chars_good (s : List Char) (h : ∀ c ∈ s, safe_char c = true) :
    ∀ d ∈ unidecode_str (replace_banned_chars (replace_minus_token (replace_plus_token s))),
      d.toNat < 128 ∧ chars_to_replace.contains d = false := by
  intro d hd
  obtain ⟨a, ha, hda⟩ := mem_unidecode_str _ d hd
  rw [replace_banned_chars_eq_map] at ha
  obtain ⟨b, hb, rfl⟩ := List.mem_map.mp ha
  by_cases hbc : chars_to_replace.contains b = true
  · have hcanon : canon_char b = '_' := by
      unfold canon_char
      rw [if_pos hbc]
    rw [hcanon, unidecode_char_ascii _ (by decide)] at hda
    simp only [List.mem_singleton] at hda
    subst hda
    exact ⟨by decide, by decide⟩
  · have hcanon : canon_char b = b := by
      unfold canon_char
      rw [if_neg hbc]
    rw [hcanon] at hda
    rcases mem_replace_minus_token _ b hb with hb' | hb'
    · rcases mem_replace_plus_token _ b hb' with hb'' | hb''
      · have hsafe := h b hb''
        rw [safe_char, Bool.or_eq_true] at hsafe
        rcases hsafe with hsafe | hsafe
        · exact absurd hsafe hbc
        · have hgk := List.all_eq_true.mp hsafe d hda
          rw [Bool.and_eq_true] at hgk
          exact ⟨by simpa using hgk.1, by simpa using hgk.2⟩
      · fin_cases hb'' <;>
          (rw [unidecode_char_ascii _ (by decide)] at hda
           simp only [List.mem_singleton] at hda
           subst hda
           exact ⟨by decide, by decide⟩)
    · fin_cases hb' <;>
        (rw [unidecode_char_ascii _ (by decide)] at hda
         simp only [List.mem_singleton] at hda
         subst hda
         exact ⟨by decide, by decide⟩)

/-- Normalizing a string of safe characters once reaches a fixed point of the
whole normalization. -/
theorem clean_column_str_idem (s : String) (h : ∀ c ∈ s.data, safe_char c = true) :
    clean_column_str (clean_column_str s) = clean_column_str s := by
  have hgood := clean_chars_good s.data h
  show (⟨unidecode_str (replace_banned_chars (replace_minus_token (replace_plus_token
      (clean_column_str s).data)))⟩ : String) = clean_column_str s
  have hdata : (clean_column_str s).data =
      unidecode_str (replace_banned_chars (replace_minus_token (replace_plus_token s.data))) := rfl
  rw [hdata]
  have hnb : '[' ∉ unidecode_str (replace_banned_chars (replace_minus_token
      (replace_plus_token s.data))) := by
    intro hmem
    have := (hgood _ hmem).2
    simp [chars_to_replace] at this
  rw [replace_plus_token_fix _ hnb, replace_minus_token_fix _ hnb,
    replace_banned_chars_fix _ (fun c hc => (hgood c hc).2),
    unidecode_str_fix _ (fun c hc => (hgood c hc).1)]
  rfl

/-- Helper: the vectorized banned-character loop over a list of strings is the
columnwise banned-character loop. -/
theorem foldl_replace_maps (L : List Char) (cols : List String) :
    L.foldl (fun cs ch => cs.map fun c => (⟨replace_char ch '_' c.data⟩ : String)) cols =
    cols.map fun c => (⟨L.foldl (fun acc ch => replace_char ch '_' acc) c.data⟩ : String) := by
  induction L generalizing cols with
  | nil =>
    simp only [List.foldl]
    conv_lhs => rw [← List.map_id cols]
    rfl
  | cons ch L ih =>
    simp only [List.foldl, ih, List.map_map]
    rfl

/-- Helper: the sequence normalizer is the single-label normalizer applied
elementwise. -/
theorem clean_names_eq_map (columns : List String) :
    clean_column_names columns = columns.map clean_column_str := by
  unfold clean_column_names
  simp only [List.map_map, foldl_replace_maps]
  rfl

/-- C7 (amended): column-name normalization is idempotent on every input,
single label or sequence, all of whose characters either belong to the
replaced-character set or transliterate to ASCII output free of replaced
characters; this covers all ASCII inputs and all Latin diacritics. -/
theorem clean_idempotent_on_safe_inputs (cols : List String)
    (h : ∀ s ∈ cols, ∀ c ∈ s.data, safe_char c = true) :
    clean_column_names (clean_column_names cols) = clean_column_names cols ∧
    ∀ s ∈ cols, clean_column_str (clean_column_str s) = clean_column_str s := by
  constructor
  · rw [clean_names_eq_map, clean_names_eq_map, List.map_map]
    apply List.map_congr_left
    intro s hs
    exact clean_column_str_idem s (h s hs)
  · intro s hs
    exact clean_column_str_idem s (h s hs)

/-- Witness for C7 (amended) at a concrete Polish header list. -/
theorem clean_idempotent_on_safe_inputs_witness :
    (∀ s ∈ ["Zużycie [kWh]", "Moc [+] 15%"], ∀ c ∈ s.data, safe_char c = true) ∧
    clean_column_names (clean_column_names ["Zużycie [kWh]", "Moc [+] 15%"]) =
      clean_column_names ["Zużycie [kWh]", "Moc [+] 15%"] ∧
    clean_column_str (clean_column_str "Zużycie [kWh]") = clean_column_str "Zużycie [kWh]" :=
  ⟨by decide,
   (clean_idempotent_on_safe_inputs ["Zużycie [kWh]", "Moc [+] 15%"] (by decide)).1,
   (clean_idempotent_on_safe_inputs ["Zużycie [kWh]", "Moc [+] 15%"] (by decide)).2
     "Zużycie [kWh]" (by decide)⟩

/-- C7 counterexample: on the CP1250 en dash, which unidecode transliterates
to an ASCII hyphen only after the hyphen-replacement pass has already run,
normalization is not idempotent, neither for a single label nor for a
sequence. -/
theorem clean_idempotence_cex :
    clean_column_str (clean_column_str "–") ≠ clean_column_str "–" ∧
    clean_column_names (clean_column_names ["–"]) ≠ clean_column_names ["–"] := by
  decide

/-- C8: the sequence normalizer clean_column_names equals the single-label
normalizer clean_column_str applied elementwise; both are (deterministic)
functions of their input. -/
theorem clean_names_eq_map_clean_str (columns : List String) :
    clean_column_names columns = columns.map clean_column_str :=
  clean_names_eq_map columns

/-! ## Category configuration (google_shared_drive_configs.py) and schema
derivation (DriveConnector.create_schema) -/

/-- Python-level column types used as values of the config dtype maps. -/
inductive PyType
  | int
  | str
  | float
  | bool
deriving DecidableEq, Repr

/-- The module-level map bq_types_mapping from Python types to BigQuery types. -/
def bq_types_mapping : PyType → String
  | .int => "INT64"
  | .str => "STRING"
  | .float => "FLOAT64"
  | .bool => "BOOLEAN"

/-- The module-level list folder3_columns_to_float. -/
def folder3_columns_to_float : List String := ["column_4", "column_5"]

/-- One entry of the configs dictionary of google_shared_drive_configs.py. -/
structure CategoryConfig where
  date_cols : List String
  dtypes : List (String × PyType)
  skip_rows : Option Nat
  encoding : Option String
deriving DecidableEq, Repr

/-- The entry shared by folder_1 and folder_2 (dict.fromkeys in the source). -/
def folder12_config : CategoryConfig where
  date_cols := ["col_date"]
  dtypes := [("column_1", .int), ("column_2", .str), ("column_3", .str), ("column_4", .float),
    ("column_5", .float), ("column_6", .str), ("column_7", .float)]
  skip_rows := some 2
  encoding := some "CP1250"

/-- The entry for folder_3. -/
def folder3_config : CategoryConfig where
  date_cols := ["date_col"]
  dtypes := [("column_1", .str), ("column_2", .int), ("column_3", .str), ("column_4", .str),
    ("column_5", .float), ("column_6", .str), ("column_7", .float)]
  skip_rows := none
  encoding := none

/-- The allow-list configs of all_folders. -/
def all_folders : List String := ["folder_1", "folder_2", "folder_3"]

/-- Lookup in the configs dictionary; none models a missing key, on which the
source would raise KeyError. -/
def configs (folder_name : String) : Option CategoryConfig :=
  if folder_name = "folder_1" ∨ folder_name = "folder_2" then some folder12_config
  else if folder_name = "folder_3" then some folder3_config
  else none

/-- One field of a BigQuery schema as built by create_schema. -/
structure SchemaField where
  name : String
  type : String
  description : String
deriving DecidableEq, Repr

/-- DriveConnector.create_schema: map every declared column through
bq_types_mapping (forcing float for the folder_3 comma-decimal columns first),
with the cleaned column name and the original label as description, then
append one TIMESTAMP field per declared date column. -/
def create_schema (folder_name : String) : Option (List SchemaField) :=
  match configs folder_name with
  | none => none
  | some cfg =>
    let base := cfg.dtypes.map fun p =>
      let ty := if folder_name = "folder_3" ∧ p.1 ∈ folder3_columns_to_float
        then PyType.float else p.2
      { name := clean_column_str p.1, type := bq_types_mapping ty, description := p.1 }
    let dates := cfg.date_cols.map fun d =>
      { name := clean_column_str d, type := "TIMESTAMP", description := d }
    some (base ++ dates)

example : (create_schema "folder_3").map (List.map fun f => f.type) =
    some ["STRING", "INT64", "STRING", "FLOAT64", "FLOAT64", "STRING", "FLOAT64", "TIMESTAMP"] := by
  decide

/-- C6: for every configured category, the derived schema has one field per
declared column followed by one TIMESTAMP field per date column, declared
columns keep declaration order and are typed through bq_types_mapping after
the folder_3 float override, every description is the pre-normalization
label, and every name is the normalized label. -/
theorem create_schema_spec (folder_name : String) (cfg : CategoryConfig)
    (h : configs folder_name = some cfg) :
    ∃ schema, create_schema folder_name = some schema ∧
      schema.length = cfg.dtypes.length + cfg.date_cols.length ∧
      schema.map (fun f => f.description) = cfg.dtypes.map Prod.fst ++ cfg.date_cols ∧
      schema.map (fun f => f.type) =
        cfg.dtypes.map (fun p => bq_types_mapping
          (if folder_name = "folder_3" ∧ p.1 ∈ folder3_columns_to_float
            then PyType.float else p.2)) ++
          cfg.date_cols.map (fun _ => "TIMESTAMP") ∧
      schema.map (fun f => f.name) =
        cfg.dtypes.map (fun p => clean_column_str p.1) ++ cfg.date_cols.map clean_column_str := by
  unfold configs at h
  split_ifs at h with h1 h2
  · rcases h1 with rfl | rfl <;>
      (cases h
       exact ⟨_, rfl, by decide, by decide, by decide, by decide⟩)
  · subst h2
    cases h
    exact ⟨_, rfl, by decide, by decide, by decide, by decide⟩

/-- Witness for C6 at the folder_3 entry. -/
theorem create_schema_spec_witness :
    ∃ schema, create_schema "folder_3" = some schema ∧
      schema.length = folder3_config.dtypes.length + folder3_config.date_cols.length ∧
      schema.map (fun f => f.description) =
        folder3_config.dtypes.map Prod.fst ++ folder3_config.date_cols ∧
      schema.map (fun f => f.type) =
        folder3_config.dtypes.map (fun p => bq_types_mapping
          (if "folder_3" = "folder_3" ∧ p.1 ∈ folder3_columns_to_float
            then PyType.float else p.2)) ++
          folder3_config.date_cols.map (fun _ => "TIMESTAMP") ∧
      schema.map (fun f => f.name) =
        folder3_config.dtypes.map (fun p => clean_column_str p.1) ++
          folder3_config.date_cols.map clean_column_str :=
  create_schema_spec "folder_3" folder3_config rfl

/-! ## Dataframes and per-category preparation (DriveConnector.prepare_df) -/

/-- The projection of a pandas dataframe that the connector control flow
observes: its column labels and its number of rows. Cell values are not
represented; the only value-level transformations in the source
(change_str_with_comma_to_float for folder_3) keep columns and row count
unchanged, so they act as the identity on this projection. -/
structure Df where
  columns : List String
  nrows : Nat
deriving DecidableEq, Repr

/-- Pandas df.empty: true when the frame has no rows or no columns. -/
def df_empty (df : Df) : Bool :=
  df.nrows = 0 || df.columns.isEmpty

/-- DriveConnector.prepare_df_folder3: rewrites comma-decimal string cells of
two columns into floats; columns and row count are unchanged. -/
def prepare_df_folder3 (df : Df) : Df := df

/-- DriveConnector.prepare_df_folder12: renames the bracket headers with a
trailing blank to their canonical spelling (pandas rename on each label). -/
def prepare_df_folder12 (df : Df) : Df :=
  let cols1 := df.columns.map fun c => if c = "[-] " then "[-]" else c
  let cols2 := cols1.map fun c => if c = "[+] " then "[+]" else c
  { df with columns := cols2 }

/-- DriveConnector.prepare_df: category-specific preparation, then append the
file marker column (whose cells hold the file name, a value this projection
does not represent), insert the ts_ms column first, and normalize all names. -/
def prepare_df (dfIn : Df) (_file_name folder_name : String) : Df :=
  let df := if folder_name = "folder_3" then prepare_df_folder3 dfIn else dfIn
  let df := if folder_name = "folder_1" ∨ folder_name = "folder_2"
    then prepare_df_folder12 df else df
  let df := { df with columns := df.columns ++ ["file"] }
  let df := { df with columns := "ts_ms" :: df.columns }
  { df with columns := clean_column_names df.columns }

/-! ## Run state, observable events and the upload path
(DriveConnector.upload_df_to_bq / upload_csv_to_bq / send_confirmation_mail) -/

/-- The two mutable accumulators the connector methods read and write:
the files_added list and the throttle counter. -/
structure RunState where
  files_added : List String
  counter : Nat
deriving DecidableEq, Repr

/-- Observable side effects of a run, in order of occurrence: an error mail
for one file, the ten-second throttle sleep, a BigQuery load-job submission
(with its table id, file name, dataframe columns, and whether the job raised
ValueError), and the end-of-run confirmation mail. -/
inductive Ev
  | errorMail (file folder : String)
  | sleep
  | loadJob (table file : String) (cols : List String) (ok : Bool)
  | confirmMail (subject body : String)
deriving DecidableEq, Repr

/-- DriveConnector.upload_df_to_bq: sleep when the shared counter is a
multiple of five, submit the load job against dataset.folder (a ValueError
from the job is caught and turned into an error mail), then increment the
counter. -/
def upload_df_to_bq (dataset : String) (st : RunState) (df : Df)
    (folder_name file_name : String) (loadOk : Bool) : RunState × List Ev :=
  let sleepEvs := if st.counter % 5 = 0 then [Ev.sleep] else []
  let table_id := dataset ++ "." ++ folder_name
  let loadEvs := [Ev.loadJob table_id file_name df.columns loadOk] ++
    (if loadOk then [] else [Ev.errorMail file_name folder_name])
  ({ st with counter := st.counter + 1 }, sleepEvs ++ loadEvs)

/-- DriveConnector.upload_csv_to_bq: download and parse the file (a ValueError
while parsing, or an empty frame, is caught and turned into an error mail and
an early return), otherwise prepare the frame, upload it, and append the file
name to files_added unconditionally. -/
def upload_csv_to_bq (dataset : String) (st : RunState) (folder_name file_name : String)
    (parse : Except Unit Df) (loadOk : Bool) : RunState × List Ev :=
  match parse with
  | .error _ => (st, [Ev.errorMail file_name folder_name])
  | .ok df =>
    if df_empty df then (st, [Ev.errorMail file_name folder_name])
    else
      let df := prepare_df df file_name folder_name
      let res := upload_df_to_bq dataset st df folder_name file_name loadOk
      ({ res.1 with files_added := res.1.files_added ++ [file_name] }, res.2)

/-- DriveConnector.send_confirmation_mail: one mail whose subject and body
depend on whether files_added is nonempty. -/
def send_confirmation_mail (st : RunState) : Ev :=
  if st.files_added ≠ [] then
    Ev.confirmMail "Drive to BQ Upload: Transfer completed"
      ("Files added: \n" ++ String.intercalate "\n" st.files_added)
  else
    Ev.confirmMail "Drive to BQ Upload: No file uploaded"
      "No file from Drive was added to BQ"

/-! ## The dedup gate (DriveConnector.if_table_not_in_bq) -/

/-- Outcome of executing the dedup query against BigQuery: the destination
table does not exist (google.api_core NotFound), the query succeeded with a
number of returned rows, or the query failed with any other exception. -/
inductive QueryOutcome
  | notFound
  | success (total_rows : Nat)
  | failure
deriving DecidableEq, Repr

/-- DriveConnector.if_table_not_in_bq: NotFound is caught and means proceed
(ok true); a successful query with at least one row means the file is already
in BigQuery (ok false); a successful query with zero rows means proceed;
any other exception propagates (error). -/
def if_table_not_in_bq (q : QueryOutcome) : Except Unit Bool :=
  match q with
  | .notFound => .ok true
  | .success total_rows => if total_rows ≠ 0 then .ok false else .ok true
  | .failure => .error ()

/-- The response BigQuery gives to the dedup query (select file where file
equals the file name, limit 1) as a function of the destination table state:
no table yields NotFound, otherwise at most one matching row is returned. -/
def dedup_query_outcome (table : Option (List String)) (file_name : String) : QueryOutcome :=
  match table with
  | none => .notFound
  | some rows => .success (min (rows.countP fun r => r == file_name) 1)

/-! ## Discovery and the per-item loop
(DriveConnector.get_shared_drive_id / iterate_through_items / run_transfer) -/

/-- One Drive item as consumed by iterate_through_items: its id, display
name, first parent id, and trashed flag. -/
structure Item where
  id : String
  name : String
  parent : String
  trashed : Bool
deriving DecidableEq, Repr

/-- Equality of Except values is decidable when it is on both sides. -/
instance {ε α : Type} [DecidableEq ε] [DecidableEq α] : DecidableEq (Except ε α) := fun a b => by
  cases a <;> cases b
  case error.error e f =>
    by_cases h : e = f
    · exact isTrue (by rw [h])
    · refine isFalse fun hh => h ?_
      injection hh
  case error.ok e x => exact isFalse fun hh => by injection hh
  case ok.error x e => exact isFalse fun hh => by injection hh
  case ok.ok x y =>
    by_cases h : x = y
    · exact isTrue (by rw [h])
    · refine isFalse fun hh => h ?_
      injection hh

/-- One Drive item together with the responses the external services give
while processing it: the dedup query outcome, the parse result (error models
a ValueError from read_csv), and whether the load job succeeds. -/
structure ItemCtx where
  item : Item
  dedup : QueryOutcome
  parse : Except Unit Df
  loadOk : Bool
deriving DecidableEq, Repr

/-- Python folder_name.replace with blank to underscore. -/
def replace_spaces (s : String) : String :=
  ⟨s.data.map fun c => if c = ' ' then '_' else c⟩

/-- The body of the loop of DriveConnector.iterate_through_items for one item:
skip trashed items, items whose parent folder is unknown (a falsy dict get),
and items whose folder is not allow-listed; otherwise consult the dedup gate
(whose uncaught non-NotFound exceptions propagate out of the loop) and upload
when it says proceed. -/
def process_item (dataset : String) (folders_dict : List (String × String))
    (st : RunState) (ctx : ItemCtx) : Except Unit (RunState × List Ev) :=
  if ctx.item.trashed then .ok (st, [])
  else
    match folders_dict.lookup ctx.item.parent with
    | none => .ok (st, [])
    | some folder_name =>
      if folder_name ∈ all_folders then
        let folder_name := replace_spaces folder_name
        match if_table_not_in_bq ctx.dedup with
        | .error e => .error e
        | .ok true => .ok (upload_csv_to_bq dataset st folder_name ctx.item.name ctx.parse ctx.loadOk)
        | .ok false => .ok (st, [])
      else .ok (st, [])

/-- DriveConnector.iterate_through_items: process the items in order (an
exception escaping one item aborts the whole loop) and finish with the single
confirmation mail. -/
def iterate_through_items (dataset : String) (folders_dict : List (String × String))
    (st : RunState) : List ItemCtx → Except Unit (RunState × List Ev)
  | [] => .ok (st, [send_confirmation_mail st])
  | ctx :: rest =>
    match process_item dataset folders_dict st ctx with
    | .error e => .error e
    | .ok (st', evs) =>
      match iterate_through_items dataset folders_dict st' rest with
      | .error e => .error e
      | .ok (stf, evs') => .ok (stf, evs ++ evs')

/-- DriveConnector.get_shared_drive_id over the drives listing (name, id):
return the id of the first drive with the wanted name. The source builds
RuntimeError values in the no-drives and not-found paths but never raises
them, so both paths fall through and the method returns None. -/
def get_shared_drive_id (drives : List (String × String))
    (shared_drive_name : String) : Option String :=
  drives.lookup shared_drive_name

/-- DriveConnector.run_transfer: resolve the shared drive id (possibly None,
see get_shared_drive_id), list folders and items through the external API
(their responses are inputs here), and iterate. With an empty items list the
source builds one more unraised RuntimeError and does nothing at all: no
item is processed and no confirmation mail is sent. -/
def run_transfer (dataset : String) (st : RunState) (drives : List (String × String))
    (shared_drive_name : String) (folders_dict : List (String × String))
    (items : List ItemCtx) : Except Unit (RunState × List Ev) :=
  let _shared_drive_id := get_shared_drive_id drives shared_drive_name
  if items.isEmpty then .ok (st, [])
  else iterate_through_items dataset folders_dict st items

/-! ## The throttle policy (C5) -/

/-- A run of sequential load attempts through upload_df_to_bq, threading the
shared run state and returning the events of each attempt in order. -/
def run_loads (dataset : String) (st : RunState) :
    List (Df × String × String × Bool) → List (List Ev)
  | [] => []
  | (df, folder_name, file_name, loadOk) :: rest =>
    let res := upload_df_to_bq dataset st df folder_name file_name loadOk
    res.2 :: run_loads dataset res.1 rest

/-- Helper: each attempt contributes one event list. -/
theorem run_loads_length (dataset : String) (st : RunState)
    (loads : List (Df × String × String × Bool)) :
    (run_loads dataset st loads).length = loads.length := by
  induction loads generalizing st with
  | nil => rfl
  | cons l rest ih =>
    obtain ⟨df, folder_name, file_name, loadOk⟩ := l
    simp [run_loads, ih]

/-- Helper: the attempt at index i sleeps exactly when the counter reaching it
is a multiple of five, and then the sleep is the first event of the attempt. -/
theorem run_loads_sleep (dataset : String) (st : RunState)
    (loads : List (Df × String × String × Bool)) (i : Nat) (h : i < loads.length) :
    (Ev.sleep ∈ (run_loads dataset st loads).getD i [] ↔ (st.counter + i) % 5 = 0) ∧
    ((st.counter + i) % 5 = 0 →
      ((run_loads dataset st loads).getD i []).head? = some Ev.sleep) := by
  induction loads generalizing st i with
  | nil => exact absurd h (by simp)
  | cons l rest ih =>
    obtain ⟨df, folder_name, file_name, loadOk⟩ := l
    cases i with
    | zero =>
      simp only [run_loads, List.getD_cons_zero, Nat.add_zero]
      by_cases hc : st.counter % 5 = 0
      · constructor
        · simp [upload_df_to_bq, hc]
        · intro _
          simp [upload_df_to_bq, hc]
      · constructor
        · simp only [upload_df_to_bq, hc, if_false]
          cases loadOk <;> simp
        · intro hcc
          exact absurd hcc hc
    | succ i' =>
      simp only [run_loads, List.getD_cons_succ]
      have e : st.counter + (i' + 1) = st.counter + 1 + i' := by omega
      rw [e]
      exact ih _ i' (by simpa using h)

/-- C5: across the sequential load attempts of one run started from the fresh
run state, the ten-second sleep happens during the attempt at zero-based
index i exactly when i + 1 is a multiple of five (the 5th, 10th, ... attempt),
and it is then the first event of that attempt, immediately before its load. -/
theorem throttle_every_fifth_load (dataset : String)
    (loads : List (Df × String × String × Bool)) (i : Nat) (h : i < loads.length) :
    (Ev.sleep ∈ (run_loads dataset ⟨[], 1⟩ loads).getD i [] ↔ (i + 1) % 5 = 0) ∧
    ((i + 1) % 5 = 0 →
      ((run_loads dataset ⟨[], 1⟩ loads).getD i []).head? = some Ev.sleep) := by
  have hh := run_loads_sleep dataset ⟨[], 1⟩ loads i h
  have e : (⟨[], 1⟩ : RunState).counter + i = i + 1 := by
    show 1 + i = i + 1
    omega
  rw [e] at hh
  exact hh

/-- Witness for C5: in a run of five load attempts, the fifth attempt starts
with the sleep. -/
theorem throttle_every_fifth_load_witness :
    (Ev.sleep ∈ (run_loads "ds" ⟨[], 1⟩ (List.replicate 5 (⟨["column_1"], 1⟩, "folder_1",
      "a.csv", true))).getD 4 []) ∧
    ((run_loads "ds" ⟨[], 1⟩ (List.replicate 5 (⟨["column_1"], 1⟩, "folder_1",
      "a.csv", true))).getD 4 []).head? = some Ev.sleep := by
  have h := throttle_every_fifth_load "ds"
    (List.replicate 5 (⟨["column_1"], 1⟩, "folder_1", "a.csv", true)) 4 (by decide)
  exact ⟨h.1.mpr (by decide), h.2 (by decide)⟩

/-! ## Observations over run events -/

/-- Whether an event is the end-of-run confirmation mail. -/
def is_confirm : Ev → Bool
  | .confirmMail _ _ => true
  | _ => false

/-- The file name recorded by a load-job submission event, if any. -/
def load_file_name : Ev → Option String
  | .loadJob _ file_name _ _ => some file_name
  | _ => none

/-- The confirmation mail is a confirmation mail whichever branch builds it. -/
theorem is_confirm_send_confirmation (st : RunState) :
    is_confirm (send_confirmation_mail st) = true := by
  unfold send_confirmation_mail
  split_ifs <;> rfl

/-- The confirmation mail is not a load-job event. -/
theorem load_file_name_send_confirmation (st : RunState) :
    load_file_name (send_confirmation_mail st) = none := by
  unfold send_confirmation_mail
  split_ifs <;> rfl

/-- Helper: one upload appends to files_added exactly the file names of its
load-job events, and emits no confirmation mail. -/
theorem upload_csv_spec (dataset : String) (st : RunState) (folder_name file_name : String)
    (parse : Except Unit Df) (loadOk : Bool) :
    (upload_csv_to_bq dataset st folder_name file_name parse loadOk).1.files_added =
      st.files_added ++
        (upload_csv_to_bq dataset st folder_name file_name parse loadOk).2.filterMap
          load_file_name ∧
    (upload_csv_to_bq dataset st folder_name file_name parse loadOk).2.countP is_confirm = 0 := by
  cases parse with
  | error e => simp [upload_csv_to_bq, load_file_name, is_confirm]
  | ok df =>
    cases he : df_empty df with
    | true => simp [upload_csv_to_bq, he, load_file_name, is_confirm]
    | false =>
      by_cases hc : st.counter % 5 = 0 <;> cases loadOk <;>
        simp [upload_csv_to_bq, he, upload_df_to_bq, hc, load_file_name, is_confirm]

/-- Helper: one loop iteration appends to files_added exactly the file names
of its load-job events, and emits no confirmation mail. -/
theorem process_item_spec (dataset : String) (fd : List (String × String)) (st : RunState)
    (ctx : ItemCtx) (st1 : RunState) (evs : List Ev)
    (h : process_item dataset fd st ctx = .ok (st1, evs)) :
    st1.files_added = st.files_added ++ evs.filterMap load_file_name ∧
    evs.countP is_confirm = 0 := by
  unfold process_item at h
  split at h
  · injection h with h'
    have h1 := congrArg Prod.fst h'
    have h2 := congrArg Prod.snd h'
    simp only at h1 h2
    rw [← h1, ← h2]
    simp
  · split at h
    · injection h with h'
      have h1 := congrArg Prod.fst h'
      have h2 := congrArg Prod.snd h'
      simp only at h1 h2
      rw [← h1, ← h2]
      simp
    · rename_i folder_name heq
      split at h
      · split at h
        · exact Except.noConfusion h
        · injection h with h'
          have h1 := congrArg Prod.fst h'
          have h2 := congrArg Prod.snd h'
          simp only at h1 h2
          rw [← h1, ← h2]
          exact upload_csv_spec dataset st (replace_spaces folder_name) ctx.item.name
            ctx.parse ctx.loadOk
        · injection h with h'
          have h1 := congrArg Prod.fst h'
          have h2 := congrArg Prod.snd h'
          simp only at h1 h2
          rw [← h1, ← h2]
          simp
      · injection h with h'
        have h1 := congrArg Prod.fst h'
        have h2 := congrArg Prod.snd h'
        simp only at h1 h2
        rw [← h1, ← h2]
        simp

/-- Helper: a loop run that terminates normally emits exactly one confirmation
mail, as its last event, built from the final state, and the final files_added
extends the initial one by exactly the file names of the load-job events. -/
theorem iterate_ok_spec (dataset : String) (fd : List (String × String)) :
    ∀ (items : List ItemCtx) (st stf : RunState) (evs : List Ev),
      iterate_through_items dataset fd st items = .ok (stf, evs) →
      evs.countP is_confirm = 1 ∧
      stf.files_added = st.files_added ++ evs.filterMap load_file_name ∧
      evs.getLast? = some (send_confirmation_mail stf) := by
  intro items
  induction items with
  | nil =>
    intro st stf evs h
    simp only [iterate_through_items] at h
    injection h with h'
    have h1 := congrArg Prod.fst h'
    have h2 := congrArg Prod.snd h'
    simp only at h1 h2
    rw [← h1, ← h2]
    refine ⟨?_, ?_, rfl⟩
    · simp [List.countP, List.countP.go, is_confirm_send_confirmation]
    · simp [load_file_name_send_confirmation]
  | cons ctx rest ih =>
    intro st stf evs h
    cases hp : process_item dataset fd st ctx with
    | error e =>
      simp only [iterate_through_items, hp] at h
      exact Except.noConfusion h
    | ok p =>
      obtain ⟨st1, evs1⟩ := p
      simp only [iterate_through_items, hp] at h
      cases hi : iterate_through_items dataset fd st1 rest with
      | error e =>
        simp only [hi] at h
        exact Except.noConfusion h
      | ok q =>
        obtain ⟨stf', evs'⟩ := q
        simp only [hi] at h
        injection h with h'
        have h1 := congrArg Prod.fst h'
        have h2 := congrArg Prod.snd h'
        simp only at h1 h2
        obtain ⟨hpi1, hpi2⟩ := process_item_spec dataset fd st ctx st1 evs1 hp
        obtain ⟨ih1, ih2, ih3⟩ := ih st1 stf' evs' hi
        have hne : evs' ≠ [] := by
          intro hnil
          rw [hnil] at ih3
          exact Option.noConfusion ih3
        rw [← h1, ← h2]
        refine ⟨?_, ?_, ?_⟩
        · rw [List.countP_append, hpi2, ih1]
        · rw [ih2, hpi1, List.filterMap_append, List.append_assoc]
        · rw [List.getLast?_append_of_ne_nil _ hne]
          exact ih3

/-- C1 (amended): the dedup gate returns proceed when the destination table
does not exist and when the query finds no row whose file column equals the
file name, returns already-ingested when the query finds such a row, and on
any other query failure the exception propagates out of the gate uncaught,
aborting the entire run (no later item is processed and no summary is sent),
not only the current file. -/
theorem dedup_gate_behavior :
    (∀ file_name : String,
      if_table_not_in_bq (dedup_query_outcome none file_name) = .ok true) ∧
    (∀ (rows : List String) (file_name : String), (∀ r ∈ rows, r ≠ file_name) →
      if_table_not_in_bq (dedup_query_outcome (some rows) file_name) = .ok true) ∧
    (∀ (rows : List String) (file_name : String), file_name ∈ rows →
      if_table_not_in_bq (dedup_query_outcome (some rows) file_name) = .ok false) ∧
    (∀ (dataset : String) (fd : List (String × String)) (st : RunState)
      (ctx : ItemCtx) (rest : List ItemCtx) (folder_name : String),
      ctx.item.trashed = false →
      List.lookup ctx.item.parent fd = some folder_name →
      folder_name ∈ all_folders →
      ctx.dedup = .failure →
      iterate_through_items dataset fd st (ctx :: rest) = .error ()) := by
  refine ⟨fun _ => rfl, ?_, ?_, ?_⟩
  · intro rows file_name h
    have hc : rows.countP (fun r => r == file_name) = 0 :=
      List.countP_eq_zero.mpr (by intro a ha; simpa using h a ha)
    simp [dedup_query_outcome, if_table_not_in_bq, hc]
  · intro rows file_name hmem
    have hc : 0 < rows.countP (fun r => r == file_name) :=
      List.countP_pos_iff.mpr ⟨file_name, hmem, by simp⟩
    have hm : min (rows.countP fun r => r == file_name) 1 = 1 := by omega
    simp [dedup_query_outcome, if_table_not_in_bq, hm]
  · intro dataset fd st ctx rest folder_name htrash hlookup hmem hdedup
    have hpi : process_item dataset fd st ctx = .error () := by
      simp [process_item, htrash, hlookup, hmem, hdedup, if_table_not_in_bq]
    simp [iterate_through_items, hpi]

/-- Witness for C1 (amended) at concrete table states and a concrete run. -/
theorem dedup_gate_behavior_witness :
    if_table_not_in_bq (dedup_query_outcome none "a.csv") = .ok true ∧
    if_table_not_in_bq (dedup_query_outcome (some ["b.csv"]) "a.csv") = .ok true ∧
    if_table_not_in_bq (dedup_query_outcome (some ["a.csv"]) "a.csv") = .ok false ∧
    iterate_through_items "ds" [("p1", "folder_1")] ⟨[], 1⟩
      [⟨⟨"i1", "f.csv", "p1", false⟩, .failure, .ok ⟨["column_1"], 1⟩, true⟩] = .error () := by
  have h := dedup_gate_behavior
  exact ⟨h.1 "a.csv",
    h.2.1 ["b.csv"] "a.csv" (by decide),
    h.2.2.1 ["a.csv"] "a.csv" (by decide),
    h.2.2.2 "ds" [("p1", "folder_1")] ⟨[], 1⟩
      ⟨⟨"i1", "f.csv", "p1", false⟩, .failure, .ok ⟨["column_1"], 1⟩, true⟩ []
      "folder_1" rfl rfl (by decide) rfl⟩

/-- C1 counterexample: with two fresh items whose folder is allow-listed, a
non-NotFound dedup query failure on the first aborts the whole loop: the run
yields the propagated exception, the second item is never uploaded, and no
summary mail is sent, although the same second item alone would load fine.
This refutes the claim that such a failure is fatal for that file only and
that the run continues with the next object. -/
theorem dedup_failure_aborts_run_cex :
    iterate_through_items "ds" [("p1", "folder_1")] ⟨[], 1⟩
      [⟨⟨"i1", "x.csv", "p1", false⟩, .failure, .ok ⟨["column_1"], 1⟩, true⟩,
       ⟨⟨"i2", "y.csv", "p1", false⟩, .notFound, .ok ⟨["column_1"], 1⟩, true⟩] = .error () ∧
    iterate_through_items "ds" [("p1", "folder_1")] ⟨[], 1⟩
      [⟨⟨"i2", "y.csv", "p1", false⟩, .notFound, .ok ⟨["column_1"], 1⟩, true⟩] =
      .ok (⟨["y.csv"], 2⟩,
        [Ev.loadJob "ds.folder_1" "y.csv" ["ts_ms", "column_1", "file"] true,
         Ev.confirmMail "Drive to BQ Upload: Transfer completed" "Files added: \ny.csv"]) := by
  decide

/-- C2 (amended): every item-loop run that terminates normally sends exactly
one end-of-run summary, as its last event; its body is built from the final
files_added list, which holds exactly the names of the files whose load was
attempted, including files whose load errored (those also get an immediate
error mail but still appear in the summary); when that list is empty the
distinct no-file message is sent. -/
theorem summary_mail_spec (dataset : String) (fd : List (String × String))
    (items : List ItemCtx) (stf : RunState) (evs : List Ev)
    (h : iterate_through_items dataset fd ⟨[], 1⟩ items = .ok (stf, evs)) :
    evs.countP is_confirm = 1 ∧
    stf.files_added = evs.filterMap load_file_name ∧
    evs.getLast? = some (send_confirmation_mail stf) := by
  obtain ⟨h1, h2, h3⟩ := iterate_ok_spec dataset fd items ⟨[], 1⟩ stf evs h
  exact ⟨h1, by simpa using h2, h3⟩

/-- Witness for C2 (amended) at a one-item run that loads successfully. -/
theorem summary_mail_spec_witness :
    ([Ev.loadJob "ds.folder_1" "a.csv" ["ts_ms", "column_1", "file"] true,
      Ev.confirmMail "Drive to BQ Upload: Transfer completed"
        "Files added: \na.csv"].countP is_confirm = 1) ∧
    (⟨["a.csv"], 2⟩ : RunState).files_added =
      [Ev.loadJob "ds.folder_1" "a.csv" ["ts_ms", "column_1", "file"] true,
       Ev.confirmMail "Drive to BQ Upload: Transfer completed"
         "Files added: \na.csv"].filterMap load_file_name ∧
    [Ev.loadJob "ds.folder_1" "a.csv" ["ts_ms", "column_1", "file"] true,
     Ev.confirmMail "Drive to BQ Upload: Transfer completed"
       "Files added: \na.csv"].getLast? =
      some (send_confirmation_mail ⟨["a.csv"], 2⟩) :=
  summary_mail_spec "ds" [("p1", "folder_1")]
    [⟨⟨"i1", "a.csv", "p1", false⟩, .notFound, .ok ⟨["column_1"], 1⟩, true⟩]
    ⟨["a.csv"], 2⟩ _ (by decide)

/-- C2 counterexample: a file whose load job raises ValueError still has its
name appended to files_added, so the end-of-run summary reports it as added
even though an error mail was sent for it; the claim that the summary lists
no file whose load errored is false. -/
theorem summary_includes_errored_file_cex :
    iterate_through_items "ds" [("p1", "folder_1")] ⟨[], 1⟩
      [⟨⟨"i1", "bad.csv", "p1", false⟩, .notFound, .ok ⟨["column_1"], 2⟩, false⟩] =
    .ok (⟨["bad.csv"], 2⟩,
      [Ev.loadJob "ds.folder_1" "bad.csv" ["ts_ms", "column_1", "file"] false,
       Ev.errorMail "bad.csv" "folder_1",
       Ev.confirmMail "Drive to BQ Upload: Transfer completed"
         "Files added: \nbad.csv"]) := by
  decide

/-- C3 (code bug evidence): when the drives listing holds no drive with the
wanted name, get_shared_drive_id returns none because the source constructs
its RuntimeError values without raising them; run_transfer then proceeds to
list folders and items and processes them, loading a file and sending the
summary, instead of aborting before any object is processed. -/
theorem discovery_failure_not_fatal :
    get_shared_drive_id [] "My Drive" = none ∧
    run_transfer "ds" ⟨[], 1⟩ [] "My Drive" [("p1", "folder_1")]
      [⟨⟨"i1", "a.csv", "p1", false⟩, .notFound, .ok ⟨["column_1"], 1⟩, true⟩] =
    .ok (⟨["a.csv"], 2⟩,
      [Ev.loadJob "ds.folder_1" "a.csv" ["ts_ms", "column_1", "file"] true,
       Ev.confirmMail "Drive to BQ Upload: Transfer completed"
         "Files added: \na.csv"]) := by
  decide

/-- C4: a parsed dataframe with zero rows raises the empty-CSV ValueError,
which is caught: the outcome is exactly one per-file error mail, the run
state is untouched (nothing recorded, counter unchanged), and the load step
is never reached. -/
theorem empty_csv_skipped (dataset : String) (st : RunState)
    (folder_name file_name : String) (df : Df) (loadOk : Bool) (h : df.nrows = 0) :
    upload_csv_to_bq dataset st folder_name file_name (.ok df) loadOk =
      (st, [Ev.errorMail file_name folder_name]) := by
  have he : df_empty df = true := by simp [df_empty, h]
  simp [upload_csv_to_bq, he]

/-- Witness for C4 at a concrete empty dataframe. -/
theorem empty_csv_skipped_witness :
    upload_csv_to_bq "ds" ⟨[], 1⟩ "folder_1" "empty.csv" (.ok ⟨["column_1"], 0⟩) true =
      (⟨[], 1⟩, [Ev.errorMail "empty.csv" "folder_1"]) :=
  empty_csv_skipped "ds" ⟨[], 1⟩ "folder_1" "empty.csv" ⟨["column_1"], 0⟩ true rfl

/-! ## Python attribute semantics of the DriveConnector accumulators (C10) -/

/-- The process-wide state behind the class-level default `files_added = []`
of the DriveConnector dataclass: one list object shared by every instance,
mutated in place by list.append. -/
structure PyProcess where
  files_added_obj : List String
deriving DecidableEq, Repr

/-- The per-instance attribute dictionary entries relevant here: an instance
gets its own counter entry only once `self.counter += 1` rebinds the name on
the instance; before that, reads fall through to the class attribute. -/
structure PyInstance where
  counter_attr : Option Nat
deriving DecidableEq, Repr

/-- The class attribute `counter = 1`, never rebound on the class itself. -/
def counter_class_default : Nat := 1

/-- A freshly constructed DriveConnector: the dataclass init sets neither a
counter nor a files_added entry in the instance dictionary. -/
def new_instance : PyInstance := ⟨none⟩

/-- Reading self.counter: the instance entry if present, else the class
attribute. -/
def read_counter (i : PyInstance) : Nat :=
  i.counter_attr.getD counter_class_default

/-- The statement `self.counter += 1`: reads through to the class attribute
if needed, then binds the incremented value on the instance. -/
def inc_counter (i : PyInstance) : PyInstance :=
  ⟨some (read_counter i + 1)⟩

/-- The statement `self.files_added.append(file_name)`: mutates the one
shared list object in place; no instance attribute is ever created. -/
def append_files_added (p : PyProcess) (file_name : String) : PyProcess :=
  ⟨p.files_added_obj ++ [file_name]⟩

/-- Reading self.files_added: always the shared class-level list object. -/
def read_files_added (p : PyProcess) : List String :=
  p.files_added_obj

/-- C10 (amended): files_added really is shared process state, so a second
run constructed after a first one starts with the first run's recorded file
names and its summary lists them; but the counter is not shared: the
augmented assignment binds an instance attribute, so a fresh second instance
reads the untouched class value one, not the first run's throttle count. -/
theorem class_attr_sharing_spec :
    read_counter new_instance = 1 ∧
    (∀ (i : PyInstance) (k : Nat),
      read_counter (inc_counter^[k] i) = read_counter i + k) ∧
    (∀ (p : PyProcess) (fs : List String),
      read_files_added (fs.foldl append_files_added p) = read_files_added p ++ fs) ∧
    (∀ (dataset : String) (fd : List (String × String)) (p : PyProcess)
      (items : List ItemCtx) (stf : RunState) (evs : List Ev),
      iterate_through_items dataset fd ⟨read_files_added p, read_counter new_instance⟩
        items = .ok (stf, evs) →
      (∃ rest, stf.files_added = read_files_added p ++ rest) ∧
      evs.getLast? = some (send_confirmation_mail stf)) := by
  refine ⟨rfl, ?_, ?_, ?_⟩
  · intro i k
    induction k generalizing i with
    | zero => rfl
    | succ k ihk =>
      rw [Function.iterate_succ_apply, ihk (inc_counter i)]
      show read_counter i + 1 + k = read_counter i + (k + 1)
      omega
  · intro p fs
    induction fs generalizing p with
    | nil => simp
    | cons f fs ihf =>
      rw [List.foldl_cons, ihf (append_files_added p f)]
      simp [append_files_added, read_files_added, List.append_assoc]
  · intro dataset fd p items stf evs h
    obtain ⟨_, h2, h3⟩ := iterate_ok_spec dataset fd items _ stf evs h
    exact ⟨⟨evs.filterMap load_file_name, h2⟩, h3⟩

/-- Witness for C10 (amended): after a first run that added two files and
attempted two loads, the shared list holds both names, the first instance
reads counter three, while a second, fresh instance reads counter one; and a
second run started over the shared list reports those files in its summary. -/
theorem class_attr_sharing_spec_witness :
    read_counter new_instance = 1 ∧
    read_counter (inc_counter^[2] new_instance) = 3 ∧
    read_files_added (["a.csv", "b.csv"].foldl append_files_added ⟨[]⟩) =
      ["a.csv", "b.csv"] ∧
    ((∃ rest, (⟨["a.csv", "b.csv"], 1⟩ : RunState).files_added =
        read_files_added ⟨["a.csv", "b.csv"]⟩ ++ rest) ∧
      [send_confirmation_mail ⟨["a.csv", "b.csv"], 1⟩].getLast? =
        some (send_confirmation_mail ⟨["a.csv", "b.csv"], 1⟩)) := by
  have h := class_attr_sharing_spec
  refine ⟨h.1, ?_, h.2.2.1 ⟨[]⟩ ["a.csv", "b.csv"], ?_⟩
  · rw [h.2.1 new_instance 2, h.1]
  · exact h.2.2.2 "ds" [] ⟨["a.csv", "b.csv"]⟩ [] ⟨["a.csv", "b.csv"], 1⟩
      [send_confirmation_mail ⟨["a.csv", "b.csv"], 1⟩] rfl

/-- C10 counterexample: the claim that a second instance starts with the
first run's throttle count is false: after two increments on the first
instance its counter reads three, the class attribute is untouched, and a
fresh instance reads one, not three; only the files_added list carries over. -/
theorem class_attr_counter_cex :
    read_files_added (append_files_added (append_files_added ⟨[]⟩ "a.csv") "b.csv") =
      ["a.csv", "b.csv"] ∧
    read_counter (inc_counter (inc_counter new_instance)) = 3 ∧
    read_counter new_instance = 1 ∧
    read_counter new_instance ≠ read_counter (inc_counter (inc_counter new_instance)) := by
  decide

/-! ## The storage connector (google_storage_connector.py, C9) -/

/-- The Python exceptions relevant to the storage loop: BadRequest from the
load API (caught by the loop), the unbound-variable NameError raised by
count_lines on an empty object, and the IndexError from splitting a blob
name without a slash (both uncaught). -/
inductive PyErr
  | badRequest
  | nameError
  | indexError
deriving DecidableEq, Repr

/-- StorageConnector.count_lines: iterate the decompressed object with
enumerate and return the loop variable after the loop, that is the zero-based
index of the last record; on an empty object the variable was never bound and
reading it raises (none). The input list holds the newline-delimited records
of the decompressed raw object. -/
def count_lines (records : List String) : Option Nat :=
  records.foldl (fun acc _ => some (match acc with | none => 0 | some k => k + 1)) none

/-- StorageConnector.upload_data_to_bq: submits the load job and reads the
destination num_rows; both are external API calls, so their combined outcome
(BadRequest or the reported row count) is an input to the model. -/
def upload_data_to_bq (load_response : Except PyErr Nat) : Except PyErr Nat :=
  load_response

/-- StorageConnector.check_if_all_rows_uploaded: load first (a BadRequest
propagates), then recount and compare, printing either the matched count or
a mismatch warning; an empty object raises NameError out of count_lines. -/
inductive VerifyMsg
  | matched (n : Nat)
  | mismatch (loaded counted : Nat)
deriving DecidableEq, Repr

/-- See VerifyMsg: the comparison step of check_if_all_rows_uploaded. -/
def check_if_all_rows_uploaded (load_response : Except PyErr Nat)
    (records : List String) : Except PyErr VerifyMsg :=
  match upload_data_to_bq load_response with
  | .error e => .error e
  | .ok rows_loaded =>
    match count_lines records with
    | none => .error .nameError
    | some lines =>
      if rows_loaded = lines then .ok (.matched rows_loaded)
      else .ok (.mismatch rows_loaded lines)

/-- Substring test on character lists (Python `in` on str). -/
def contains_substring (pat s : List Char) : Bool :=
  (List.range (s.length + 1)).any fun i => pat.isPrefixOf (s.drop i)

/-- StorageConnector.check_if_table_to_skip: skip when any configured
fragment occurs in the table name. -/
def check_if_table_to_skip (tables_to_skip : List String) (table_name : String) : Bool :=
  tables_to_skip.any fun t => contains_substring t.data table_name.data

/-- Python str.split with a one-character separator (keeps empty pieces). -/
def split_on_char (sep : Char) : List Char → List (List Char)
  | [] => [[]]
  | c :: rest =>
    let r := split_on_char sep rest
    if c = sep then [] :: r
    else
      match r with
      | [] => [[c]]
      | h :: t => (c :: h) :: t

/-- StorageConnector.get_table_name_from_blob: the part of the blob name
after the first slash and before its first dot; none models the IndexError
when the name has no slash. -/
def get_table_name_from_blob (blob_name : String) : Option String :=
  match split_on_char '/' blob_name.data with
  | _ :: second :: _ => some ⟨(split_on_char '.' second).headD []⟩
  | _ => none

/-- StorageConnector.get_uri_from_blob. -/
def get_uri_from_blob (bucket_name blob_name : String) : String :=
  "gs://" ++ bucket_name ++ "/" ++ blob_name

/-- One storage blob together with the external responses observed while
processing it: its object name, the newline-delimited records of its
decompressed content, and the load outcome. -/
structure BlobCtx where
  name : String
  records : List String
  load_response : Except PyErr Nat
deriving DecidableEq, Repr

/-- Observable outcome of one iteration of the storage loop. -/
inductive StorageEv
  | skippedName (table : String)
  | verified (table : String) (msg : VerifyMsg)
  | skippedBadRequest (table : String)
deriving DecidableEq, Repr

/-- The body of the loop of StorageConnector.load_data_from_storage for one
blob: resolve the table name (IndexError propagates), skip configured names,
run the load-and-verify step, catching exactly BadRequest as a logged skip;
any other exception propagates and aborts the loop. -/
def process_blob (tables_to_skip : List String) (b : BlobCtx) : Except PyErr StorageEv :=
  match get_table_name_from_blob b.name with
  | none => .error .indexError
  | some table_name =>
    if check_if_table_to_skip tables_to_skip table_name then .ok (.skippedName table_name)
    else
      match check_if_all_rows_uploaded b.load_response b.records with
      | .ok msg => .ok (.verified table_name msg)
      | .error .badRequest => .ok (.skippedBadRequest table_name)
      | .error e => .error e

/-- StorageConnector.load_data_from_storage over the already-listed blobs of
all requested year prefixes, in listing order. -/
def load_data_from_storage (tables_to_skip : List String) :
    List BlobCtx → Except PyErr (List StorageEv)
  | [] => .ok []
  | b :: rest =>
    match process_blob tables_to_skip b with
    | .error e => .error e
    | .ok ev =>
      match load_data_from_storage tables_to_skip rest with
      | .error e => .error e
      | .ok evs => .ok (ev :: evs)

/-- Helper: the loop-variable fold returns the start index shifted by the
remaining length. -/
theorem count_lines_foldl (l : List String) (k : Nat) :
    l.foldl (fun acc _ => some (match acc with | none => 0 | some j => j + 1))
      (some k) = some (k + l.length) := by
  induction l generalizing k with
  | nil => simp
  | cons r rest ihr =>
    rw [List.foldl_cons]
    rw [ihr (k + 1)]
    simp only [List.length_cons]
    exact congrArg some (by omega)

/-- Helper: on a nonempty object the recomputed count is the record count
minus one. -/
theorem count_lines_nonempty (records : List String) (h : records ≠ []) :
    count_lines records = some (records.length - 1) := by
  cases records with
  | nil => exact absurd rfl h
  | cons r rest =>
    unfold count_lines
    rw [List.foldl_cons]
    exact (count_lines_foldl rest 0).trans (by simp)

/-- C9 (amended): the recomputed count of the storage verifier is the number
of newline-delimited records of the decompressed object minus one (the final
zero-based enumerate index, matching the one header row the loader skips);
it is compared with the row count the load reported, a mismatch yields only
the logged warning outcome (never an exception), and the loop processes every
blob independently, one outcome per blob, so a mismatch never blocks
subsequent objects; an empty verified object instead raises. -/
theorem verifier_spec :
    (∀ records : List String, records ≠ [] →
      count_lines records = some (records.length - 1)) ∧
    (∀ (n : Nat) (records : List String), records ≠ [] →
      check_if_all_rows_uploaded (.ok n) records =
        if n = records.length - 1 then .ok (.matched n)
        else .ok (.mismatch n (records.length - 1))) ∧
    (∀ (tables_to_skip : List String) (blobs : List BlobCtx),
      (∀ b ∈ blobs, ∃ ev, process_blob tables_to_skip b = .ok ev) →
      ∃ evs, load_data_from_storage tables_to_skip blobs = .ok evs ∧
        List.Forall₂ (fun b ev => process_blob tables_to_skip b = .ok ev) blobs evs) := by
  refine ⟨count_lines_nonempty, ?_, ?_⟩
  · intro n records h
    simp only [check_if_all_rows_uploaded, upload_data_to_bq, count_lines_nonempty records h]
  · intro tables_to_skip blobs
    induction blobs with
    | nil => exact fun _ => ⟨[], rfl, .nil⟩
    | cons b rest ih =>
      intro h
      obtain ⟨ev, hev⟩ := h b (by simp)
      obtain ⟨evs, hevs, hfa⟩ := ih fun x hx => h x (by simp [hx])
      refine ⟨ev :: evs, ?_, .cons hev hfa⟩
      simp only [load_data_from_storage, hev, hevs]

/-- Witness for C9 (amended): a two-record object loaded as five rows is a
mismatch warning with recomputed count one, and a three-blob loop with that
mismatch, a name-skipped blob, and a BadRequest blob completes with one
outcome per blob. -/
theorem verifier_spec_witness :
    count_lines ["header row", "data row"] = some 1 ∧
    check_if_all_rows_uploaded (.ok 5) ["header row", "data row"] =
      .ok (.mismatch 5 1) ∧
    (∃ evs, load_data_from_storage ["temp"]
        [⟨"2019/tbl.csv.gz", ["header row", "data row"], .ok 5⟩,
         ⟨"2019/temp_tbl.csv.gz", [], .error .badRequest⟩,
         ⟨"2019/x.csv.gz", ["only line"], .error .badRequest⟩] = .ok evs ∧
      List.Forall₂ (fun b ev => process_blob ["temp"] b = .ok ev)
        [⟨"2019/tbl.csv.gz", ["header row", "data row"], .ok 5⟩,
         ⟨"2019/temp_tbl.csv.gz", [], .error .badRequest⟩,
         ⟨"2019/x.csv.gz", ["only line"], .error .badRequest⟩] evs) := by
  have h := verifier_spec
  refine ⟨h.1 ["header row", "data row"] (by decide), ?_, ?_⟩
  · have h2 := h.2.1 5 ["header row", "data row"] (by decide)
    simpa using h2
  · refine h.2.2 ["temp"] _ ?_
    intro b hb
    fin_cases hb
    · exact ⟨StorageEv.verified "tbl" (VerifyMsg.mismatch 5 1), by decide⟩
    · exact ⟨StorageEv.skippedName "temp_tbl", by decide⟩
    · exact ⟨StorageEv.skippedBadRequest "x", by decide⟩

/-- C9 counterexample: on a decompressed object with two newline-delimited
records, count_lines returns one, not two (the enumerate loop variable is the
last zero-based index), so even a load that ingested both records is reported
as a mismatch against the raw record count. -/
theorem count_lines_off_by_one_cex :
    count_lines ["record one", "record two"] = some 1 ∧
    count_lines ["record one", "record two"] ≠ some 2 ∧
    check_if_all_rows_uploaded (.ok 2) ["record one", "record two"] =
      .ok (.mismatch 2 1) := by
  decide
